import Mathlib

/-!
Shallow embedding of the SkyWatch policy engine
(`src/skywatch_policy_engine`): data model, finding identity (UUIDv5 over
SHA-1), rule registry, built-in rules, and the orchestration loop of
`PolicyEngine.evaluate`, together with theorems settling the spec claims.

Machine integers are modelled as `Nat` with explicit `% 2^32` where the
source relies on 32-bit wraparound (SHA-1).  Python `datetime` instants are
modelled as opaque `Nat` tick values; the impure clock `utc_now()` is
modelled as an explicit stream `Nat → Nat` consumed draw by draw.
-/

set_option maxRecDepth 100000

namespace SkyWatch

/-! ### Bytes, UTF-8, SHA-1 and UUID version 5

Model of Python `uuid.uuid5` as used by `finding_factory._stable_finding_id`:
SHA-1 of (namespace bytes ++ UTF-8 name), first 16 bytes, with the version
nibble forced to 5 and the variant bits to RFC 4122. -/

def M32 : Nat := 4294967296

def rotl (n x : Nat) : Nat :=
  ((x <<< n) ||| (x >>> (32 - n))) % M32

def utf8EncodeChar (c : Char) : List Nat :=
  let n := c.toNat
  if n < 128 then [n]
  else if n < 2048 then
    [192 ||| (n >>> 6), 128 ||| (n &&& 63)]
  else if n < 65536 then
    [224 ||| (n >>> 12), 128 ||| ((n >>> 6) &&& 63), 128 ||| (n &&& 63)]
  else
    [240 ||| (n >>> 18), 128 ||| ((n >>> 12) &&& 63),
     128 ||| ((n >>> 6) &&& 63), 128 ||| (n &&& 63)]

def utf8Encode (s : String) : List Nat :=
  (s.data.map utf8EncodeChar).flatten

/-- Big-endian 8-byte encoding of a (bit-)length. -/
def be64 (n : Nat) : List Nat :=
  [(n >>> 56) % 256, (n >>> 48) % 256, (n >>> 40) % 256, (n >>> 32) % 256,
   (n >>> 24) % 256, (n >>> 16) % 256, (n >>> 8) % 256, n % 256]

/-- SHA-1 padding: append 0x80, zero fill to 56 mod 64, then the 64-bit
bit length. -/
def sha1Pad (m : List Nat) : List Nat :=
  let z := (119 - m.length % 64) % 64
  m ++ [128] ++ List.replicate z 0 ++ be64 (8 * m.length)

/-- Split into 64-byte chunks; the fuel argument (instantiated with the
list length) only forces structural recursion. -/
def chunks64Aux : Nat → List Nat → List (List Nat)
  | 0, _ => []
  | _ + 1, [] => []
  | fuel + 1, l => l.take 64 :: chunks64Aux fuel (l.drop 64)

def chunks64 (l : List Nat) : List (List Nat) :=
  chunks64Aux l.length l

/-- 16 big-endian 32-bit words from a 64-byte chunk. -/
def chunkWords : List Nat → List Nat
  | b0 :: b1 :: b2 :: b3 :: rest =>
      (b0 <<< 24 ||| b1 <<< 16 ||| b2 <<< 8 ||| b3) :: chunkWords rest
  | _ => []

/-- Extend the 16 message-schedule words; each step appends word
`w[i-3] ^^^ w[i-8] ^^^ w[i-14] ^^^ w[i-16]` rotated left by one, where `i`
is the current size.  Called with fuel 64 to reach 80 words. -/
def sha1Extend : Nat → Array Nat → Array Nat
  | 0, w => w
  | n + 1, w =>
      sha1Extend n
        (w.push (rotl 1 ((w.getD (w.size - 3) 0) ^^^ (w.getD (w.size - 8) 0) ^^^
                         (w.getD (w.size - 14) 0) ^^^ (w.getD (w.size - 16) 0))))

def sha1F (t b c d : Nat) : Nat :=
  if t < 20 then (b &&& c) ||| ((b ^^^ 4294967295) &&& d)
  else if t < 40 then b ^^^ c ^^^ d
  else if t < 60 then (b &&& c) ||| (b &&& d) ||| (c &&& d)
  else b ^^^ c ^^^ d

def sha1K (t : Nat) : Nat :=
  if t < 20 then 1518500249
  else if t < 40 then 1859775393
  else if t < 60 then 2400959708
  else 3395469782

def sha1Round (w : Array Nat) (st : Nat × Nat × Nat × Nat × Nat) (t : Nat) :
    Nat × Nat × Nat × Nat × Nat :=
  let (a, b, c, d, e) := st
  let temp := (rotl 5 a + sha1F t b c d + e + sha1K t + w.getD t 0) % M32
  (temp, a, rotl 30 b, c, d)

def sha1Block (h : Nat × Nat × Nat × Nat × Nat) (chunk : List Nat) :
    Nat × Nat × Nat × Nat × Nat :=
  let w := sha1Extend 64 (List.toArray (chunkWords chunk))
  let (h0, h1, h2, h3, h4) := h
  let (a, b, c, d, e) := (List.range 80).foldl (sha1Round w) (h0, h1, h2, h3, h4)
  ((h0 + a) % M32, (h1 + b) % M32, (h2 + c) % M32, (h3 + d) % M32, (h4 + e) % M32)

def word2bytes (x : Nat) : List Nat :=
  [(x >>> 24) % 256, (x >>> 16) % 256, (x >>> 8) % 256, x % 256]

/-- SHA-1 digest (20 bytes) of a byte list. -/
def sha1 (m : List Nat) : List Nat :=
  let st := (chunks64 (sha1Pad m)).foldl sha1Block
    (1732584193, 4023233417, 2562383102, 271733878, 3285377520)
  word2bytes st.1 ++ word2bytes st.2.1 ++ word2bytes st.2.2.1 ++
    word2bytes st.2.2.2.1 ++ word2bytes st.2.2.2.2

def hexDigit (n : Nat) : Char :=
  if n < 10 then Char.ofNat (48 + n) else Char.ofNat (87 + n)

def byteHex (b : Nat) : String :=
  String.mk [hexDigit (b / 16 % 16), hexDigit (b % 16)]

def bytesHex (bs : List Nat) : String :=
  String.join (bs.map byteHex)

/-- The 16 bytes of a name-based UUID version 5: first 16 bytes of the
SHA-1 of namespace bytes followed by the UTF-8 encoded name, with the
version and variant fields overwritten. -/
def uuid5Bytes (ns : List Nat) (name : String) : List Nat :=
  let b := (sha1 (ns ++ utf8Encode name)).take 16
  (b.set 6 (((b.getD 6 0) &&& 15) ||| 80)).set 8 (((b.getD 8 0) &&& 63) ||| 128)

/-- Canonical 8-4-4-4-12 lowercase hex rendering (Python `str(uuid)`). -/
def uuidStr (b : List Nat) : String :=
  bytesHex (b.take 4) ++ "-" ++ bytesHex ((b.drop 4).take 2) ++ "-" ++
  bytesHex ((b.drop 6).take 2) ++ "-" ++ bytesHex ((b.drop 8).take 2) ++ "-" ++
  bytesHex (b.drop 10)

/-- Model of Python `str(uuid.uuid5(ns, name))`. -/
def uuid5 (ns : List Nat) (name : String) : String :=
  uuidStr (uuid5Bytes ns name)

/-! ### Data model (`types.py`, `interfaces.py`, `context.py`)

Python `datetime` instants are opaque `Nat` ticks (`DTime`).  Fields whose
values the Python type system cannot keep from being `None` (the guard in
`engine.py` exists to validate `account_id` / `resource_id` presence) are
`Option String`.  Arbitrary metadata values are modelled by `PyVal`. -/

abbrev DTime := Nat

inductive Provider where
  | AWS | Azure | GCP
deriving DecidableEq, Repr

inductive ResourceType where
  | S3_BUCKET
deriving DecidableEq, Repr

def ResourceType.value : ResourceType → String
  | .S3_BUCKET => "S3_BUCKET"

inductive Severity where
  | CRITICAL | HIGH | MEDIUM | LOW
deriving DecidableEq, Repr

inductive FindingStatus where
  | OPEN | SUPPRESSED
deriving DecidableEq, Repr

inductive EvaluationErrorCode where
  | UNKNOWN_RULE | INVALID_SCHEMA | SKIPPED_MISSING_DATA | RULE_EXCEPTION
deriving DecidableEq, Repr

/-- Model of the Python values stored in `ResourceSnapshot.metadata`
(`Mapping[str, Any]`): JSON-like data plus `None`. -/
inductive PyVal where
  | none
  | bool (b : Bool)
  | int (n : Int)
  | str (s : String)
  | list (xs : List PyVal)
  | dict (xs : List (String × PyVal))

/-- First-match association lookup: model of `key in d` / `d[key]` on a
Python dict literal (keys are unique, insertion-ordered). -/
def pyLookup {α : Type} : List (String × α) → String → Option α
  | [], _ => Option.none
  | (k, v) :: rest, key => if k = key then some v else pyLookup rest key

/-- Model of Python `d.get(key)`: `None` when the key is absent. -/
def pyGet (d : List (String × PyVal)) (k : String) : PyVal :=
  (pyLookup d k).getD PyVal.none

/-- Model of Python dict assignment `d[k] = v`: replaces in place when the
key exists, appends otherwise. -/
def dictSet {α : Type} : List (String × α) → String → α → List (String × α)
  | [], k, v => [(k, v)]
  | (k0, v0) :: rest, k, v =>
      if k0 = k then (k, v) :: rest else (k0, v0) :: dictSet rest k v

structure ResourceSnapshot where
  snapshot_id : String
  account_id : Option String
  provider : Provider
  resource_type : ResourceType
  resource_id : Option String
  captured_at : Option DTime
  metadata : List (String × PyVal) := []

structure RuleConfig where
  rule_id : String
  enabled : Bool := true
  severity_override : Option Severity := Option.none
  params : Option (List (String × PyVal)) := Option.none
  suppressed : Bool := false

structure EvidenceObservation where
  path : String
  value : PyVal

structure Evidence where
  summary : String
  observations : List EvidenceObservation := []

structure Remediation where
  summary : String
  steps : List String := []
  references : List String := []
deriving DecidableEq, Repr

structure Finding where
  finding_id : String
  account_id : Option String
  resource_type : ResourceType
  resource_id : Option String
  rule_id : String
  rule_version : String
  severity : Severity
  status : FindingStatus
  title : String
  description : String
  evidence : Evidence
  remediation : Remediation
  detected_at : DTime

structure EvaluationError where
  rule_id : String
  error_code : EvaluationErrorCode
  message : String
  snapshot_id : String
  occurred_at : DTime
deriving DecidableEq, Repr

structure EvaluationStats where
  rules_evaluated : Nat
  rules_failed : Nat
  duration_ms : Nat
deriving DecidableEq, Repr

structure EvaluationResult where
  findings : List Finding
  stats : EvaluationStats
  errors : List EvaluationError := []

structure EvaluationContext where
  correlation_id : String
  evaluated_at : DTime
  account_id : Option String
  provider : Provider
  resource_type : ResourceType
  resource_id : Option String
deriving DecidableEq, Repr

/-- Rule-produced finding skeleton (`interfaces.FindingSpec`). -/
structure FindingSpec where
  finding_key : String
  title : String
  description : String
  evidence : Evidence
  remediation : Remediation
  severity : Option Severity := Option.none
  extra : List (String × PyVal) := []

/-- Bytes of `uuid.UUID("3d014e3a-8a03-4dd8-9f5d-6b7b5a03b0d2")`, the
hard-coded namespace constant from `types.py`. -/
def FINDING_ID_NAMESPACE : List Nat :=
  [61, 1, 78, 58, 138, 3, 77, 216, 159, 93, 107, 123, 90, 3, 176, 210]

/-! ### Error taxonomy (`errors.py`)

A Python rule signals conditions by raising; a rule invocation is modelled
as `Except RuleErr`.  `exc` stands for any exception other than the two
dedicated classes, carrying `type(e).__name__` and `str(e)`. -/

inductive RuleErr where
  | ruleSkippedMissingData (rule_id : String) (missing_paths : List String)
  | ruleInvalidSchema (rule_id : String) (message : String)
  | exc (type_name : String) (message : String)
deriving DecidableEq, Repr

/-- Python `repr` of a list of strings, as interpolated into the
`RuleSkippedMissingData` message. -/
def pyStrListRepr (xs : List String) : String :=
  "[" ++ String.intercalate ", " (xs.map (fun s => "\x27" ++ s ++ "\x27")) ++ "]"

/-- Model of `str(e)` for the dedicated rule-signal exception classes. -/
def RuleErr.pyStr : RuleErr → String
  | .ruleSkippedMissingData rid paths =>
      "Rule " ++ rid ++ " skipped: missing required data: " ++ pyStrListRepr paths
  | .ruleInvalidSchema rid msg => "Rule " ++ rid ++ " invalid schema: " ++ msg
  | .exc _ msg => msg

structure UnknownRuleError where
  rule_id : String
deriving DecidableEq, Repr

/-- Model of `str(e)` for `UnknownRuleError`. -/
def UnknownRuleError.pyStr (e : UnknownRuleError) : String :=
  "Unknown rule_id: " ++ e.rule_id

/-! ### Rule contract and registry (`interfaces.py`, `registry.py`) -/

structure PolicyRule where
  rule_id : String
  rule_version : String
  default_severity : Severity
  supports : ResourceType → Bool := fun _ => true
  evaluate : ResourceSnapshot → Option (List (String × PyVal)) →
    Except RuleErr (List FindingSpec)

structure RuleRegistry where
  _rules : List (String × PolicyRule) := []

def RuleRegistry.register (reg : RuleRegistry) (rule : PolicyRule) : RuleRegistry :=
  { _rules := dictSet reg._rules rule.rule_id rule }

def RuleRegistry.get (reg : RuleRegistry) (rule_id : String) :
    Except UnknownRuleError PolicyRule :=
  match pyLookup reg._rules rule_id with
  | some r => .ok r
  | Option.none => .error ⟨rule_id⟩

/-! ### Normalization guard (`guard.py`) -/

structure GuardResult where
  missing_paths : List String
deriving DecidableEq, Repr

/-- Model of `guard._has_path`: walk the dot-separated path, requiring a
mapping with the key present at every step. -/
def hasPathParts : PyVal → List String → Bool
  | _, [] => true
  | PyVal.dict xs, part :: rest =>
      match pyLookup xs part with
      | some v => hasPathParts v rest
      | Option.none => false
  | _, _ :: _ => false

/-- Model of Python `path.split(".")`, structurally recursive over the
characters. -/
def splitDotAux : List Char → List Char → List String
  | [], acc => [String.mk acc.reverse]
  | c :: rest, acc =>
      if c = '.' then String.mk acc.reverse :: splitDotAux rest []
      else splitDotAux rest (c :: acc)

def splitDot (s : String) : List String :=
  splitDotAux s.data []

def _has_path (obj : PyVal) (path : String) : Bool :=
  hasPathParts obj (splitDot path)

def NormalizationGuard.require (snapshot_dict : PyVal) (paths : List String) :
    GuardResult :=
  ⟨paths.filter (fun p => ¬ _has_path snapshot_dict p)⟩

/-! ### Finding factory (`finding_factory.py`) -/

/-- Model of `_stable_finding_id` followed by the `str(fid)` in `create`:
UUIDv5 of `"{snapshot_id}|{rule_id}|{finding_key}"` under the fixed
namespace. -/
def _stable_finding_id (snapshot_id rule_id finding_key : String) : String :=
  uuid5 FINDING_ID_NAMESPACE (snapshot_id ++ "|" ++ rule_id ++ "|" ++ finding_key)

def _ensure_evidence (e : Evidence) : Evidence := e

def _ensure_remediation (r : Remediation) : Remediation := r

structure FindingFactory where
deriving DecidableEq, Repr

def FindingFactory.create (_self : FindingFactory) (snapshot : ResourceSnapshot)
    (ctx : EvaluationContext) (rule_id : String) (rule_version : String)
    (severity : Severity) (status : FindingStatus) (spec : FindingSpec) : Finding :=
  { finding_id := _stable_finding_id snapshot.snapshot_id rule_id spec.finding_key
    account_id := snapshot.account_id
    resource_type := snapshot.resource_type
    resource_id := snapshot.resource_id
    rule_id := rule_id
    rule_version := rule_version
    severity := severity
    status := status
    title := spec.title
    description := spec.description
    evidence := _ensure_evidence spec.evidence
    remediation := _ensure_remediation spec.remediation
    detected_at := ctx.evaluated_at }

/-! ### Built-in rules (`rules/encryption.py`, `rules/secure_transport.py`) -/

/-- Model of `EncryptionEnabledRule.evaluate`. -/
def EncryptionEnabledRule.evaluate (snapshot : ResourceSnapshot)
    (_params : Option (List (String × PyVal))) : Except RuleErr (List FindingSpec) :=
  let encryption := pyGet snapshot.metadata "encryption"
  let enabled :=
    match encryption with
    | PyVal.dict xs => pyGet xs "enabled"
    | _ => PyVal.none
  match enabled with
  | PyVal.bool true => .ok []
  | _ =>
    let obs :=
      match encryption with
      | PyVal.dict xs =>
          match pyLookup xs "enabled" with
          | some _ => [EvidenceObservation.mk "metadata.encryption.enabled" (pyGet xs "enabled")]
          | Option.none => [EvidenceObservation.mk "metadata.encryption" encryption]
      | _ => [EvidenceObservation.mk "metadata.encryption" encryption]
    .ok [{ finding_key := "encryption_disabled"
           title := "S3 bucket encryption at rest is not enabled"
           description := "The bucket is missing encryption-at-rest configuration (SSE-S3 or SSE-KMS)."
           evidence := { summary := "Bucket encryption is disabled or missing."
                         observations := obs }
           remediation :=
             { summary := "Enable default encryption on the bucket."
               steps := ["Enable SSE-S3 or SSE-KMS default encryption for the bucket.",
                         "Optionally enforce encryption via a bucket policy to deny unencrypted uploads."]
               references := ["https://docs.aws.amazon.com/AmazonS3/latest/userguide/bucket-encryption.html"] } }]

def EncryptionEnabledRule : PolicyRule :=
  { rule_id := "S3_ENCRYPTION_DISABLED"
    rule_version := "1.0.0"
    default_severity := Severity.HIGH
    supports := fun rt => decide (rt = ResourceType.S3_BUCKET)
    evaluate := EncryptionEnabledRule.evaluate }

/-- Model of `SecureTransportRule.evaluate`. -/
def SecureTransportRule.evaluate (snapshot : ResourceSnapshot)
    (_params : Option (List (String × PyVal))) : Except RuleErr (List FindingSpec) :=
  let transport := pyGet snapshot.metadata "transport"
  let requires_tls :=
    match transport with
    | PyVal.dict xs => pyGet xs "requires_tls"
    | _ => PyVal.none
  match requires_tls with
  | PyVal.bool true => .ok []
  | _ =>
    .ok [{ finding_key := "tls_not_enforced"
           title := "S3 bucket policy does not enforce TLS-only access"
           description := "The bucket does not appear to require TLS (HTTPS) for access."
           evidence := { summary := "TLS is not enforced or the indicator is missing."
                         observations := [EvidenceObservation.mk "metadata.transport.requires_tls" requires_tls] }
           remediation :=
             { summary := "Enforce TLS-only access to the bucket."
               steps := ["Add a bucket policy statement that denies requests where aws:SecureTransport is false.",
                         "Validate clients access the bucket using HTTPS endpoints."]
               references := ["https://docs.aws.amazon.com/AmazonS3/latest/userguide/example-bucket-policies.html#example-bucket-policies-use-secure-transport"] } }]

def SecureTransportRule : PolicyRule :=
  { rule_id := "S3_TLS_NOT_ENFORCED"
    rule_version := "1.0.0"
    default_severity := Severity.MEDIUM
    supports := fun rt => decide (rt = ResourceType.S3_BUCKET)
    evaluate := SecureTransportRule.evaluate }

/-! ### Policy repository (`repository.py`) -/

structure StaticPolicyRepository where
  rules : List RuleConfig

def StaticPolicyRepository.get_enabled_rules (repo : StaticPolicyRepository)
    (_resource_type : ResourceType) (_account_id : Option String) : List RuleConfig :=
  repo.rules.filter (·.enabled)

/-! ### Evaluation orchestrator (`engine.py`)

`time.perf_counter` based duration is an input `duration_ms`; each
`utc_now()` call consumes the next value of the `clock` stream, threaded by
an explicit draw index. -/

/-- Model of `_resolve_severity`. -/
def _resolve_severity (rule : PolicyRule) (cfg : RuleConfig)
    (spec_severity : Option Severity) : Severity :=
  match cfg.severity_override with
  | some s => s
  | Option.none =>
    match spec_severity with
    | some s => s
    | Option.none => rule.default_severity

/-- One iteration of the config loop in `PolicyEngine.evaluate`, for a
single `cfg`: produced findings, the appended error (if any, stamped with
the `utc_now()` value `now`), and the `rules_failed` increment. -/
def evalConfig (registry : RuleRegistry) (ff : FindingFactory)
    (snapshot : ResourceSnapshot) (ctx : EvaluationContext) (cfg : RuleConfig)
    (now : DTime) : List Finding × Option EvaluationError × Nat :=
  match registry.get cfg.rule_id with
  | .error e =>
      ([], some ⟨cfg.rule_id, .UNKNOWN_RULE, e.pyStr, snapshot.snapshot_id, now⟩, 1)
  | .ok rule =>
    if ¬ rule.supports snapshot.resource_type then ([], Option.none, 0)
    else
      match rule.evaluate snapshot cfg.params with
      | .error (RuleErr.ruleSkippedMissingData rid paths) =>
          ([], some ⟨cfg.rule_id, .SKIPPED_MISSING_DATA,
            (RuleErr.ruleSkippedMissingData rid paths).pyStr,
            snapshot.snapshot_id, now⟩, 0)
      | .error (RuleErr.ruleInvalidSchema rid msg) =>
          ([], some ⟨cfg.rule_id, .INVALID_SCHEMA,
            (RuleErr.ruleInvalidSchema rid msg).pyStr,
            snapshot.snapshot_id, now⟩, 1)
      | .error (RuleErr.exc ty msg) =>
          ([], some ⟨cfg.rule_id, .RULE_EXCEPTION, ty ++ ": " ++ msg,
            snapshot.snapshot_id, now⟩, 1)
      | .ok specs =>
          let status := if cfg.suppressed then FindingStatus.SUPPRESSED
                        else FindingStatus.OPEN
          (specs.map (fun spec =>
            ff.create snapshot ctx rule.rule_id rule.rule_version
              (_resolve_severity rule cfg spec.severity) status spec),
           Option.none, 0)

/-- The config loop: accumulated findings, errors (in occurrence order) and
the total `rules_failed`; `idx` is the next clock draw index. -/
def evalLoop (registry : RuleRegistry) (ff : FindingFactory)
    (snapshot : ResourceSnapshot) (ctx : EvaluationContext) (clock : Nat → DTime) :
    Nat → List RuleConfig → List Finding × List EvaluationError × Nat
  | _, [] => ([], [], 0)
  | idx, cfg :: rest =>
    let r := evalConfig registry ff snapshot ctx cfg (clock idx)
    let next := evalLoop registry ff snapshot ctx clock
      (idx + r.2.1.toList.length) rest
    (r.1 ++ next.1, r.2.1.toList ++ next.2.1, r.2.2 + next.2.2)

structure PolicyEngine where
  repository : ResourceType → Option String → List RuleConfig
  registry : RuleRegistry
  finding_factory : FindingFactory := {}

/-- The dict built at the top of `evaluate` and probed by the guard; a
`None` attribute value is stored under its key like any other value. -/
def snapshotDict (snapshot : ResourceSnapshot) : PyVal :=
  PyVal.dict
    [("account_id", match snapshot.account_id with
        | some s => PyVal.str s
        | Option.none => PyVal.none),
     ("resource_id", match snapshot.resource_id with
        | some s => PyVal.str s
        | Option.none => PyVal.none),
     ("resource_type", PyVal.str snapshot.resource_type.value)]

/-- The `EvaluationContext` built by `evaluate` (`evaluated_at` falls back
to a `utc_now()` draw when the snapshot carries no capture time), paired
with the number of clock draws it consumed. -/
def buildCtx (snapshot : ResourceSnapshot) (clock : Nat → DTime) :
    EvaluationContext × Nat :=
  let timed :=
    match snapshot.captured_at with
    | some t => (t, 0)
    | Option.none => (clock 0, 1)
  ({ correlation_id := snapshot.snapshot_id
     evaluated_at := timed.1
     account_id := snapshot.account_id
     provider := snapshot.provider
     resource_type := snapshot.resource_type
     resource_id := snapshot.resource_id }, timed.2)

/-- Model of `PolicyEngine.evaluate`.  `clock` supplies the successive
`utc_now()` results of this call and `duration_ms` its measured elapsed
time; both model impure inputs. -/
def PolicyEngine.evaluate (engine : PolicyEngine) (snapshot : ResourceSnapshot)
    (clock : Nat → DTime) (duration_ms : Nat) : EvaluationResult :=
  let guard_result := NormalizationGuard.require (snapshotDict snapshot)
    ["account_id", "resource_id", "resource_type"]
  if guard_result.missing_paths.isEmpty then
    let built := buildCtx snapshot clock
    let rule_configs := engine.repository snapshot.resource_type snapshot.account_id
    let r := evalLoop engine.registry engine.finding_factory snapshot built.1 clock
      built.2 rule_configs
    { findings := r.1
      stats := { rules_evaluated := rule_configs.length
                 rules_failed := r.2.2
                 duration_ms := duration_ms }
      errors := r.2.1 }
  else
    { findings := []
      stats := { rules_evaluated := 0, rules_failed := 0, duration_ms := duration_ms }
      errors := [⟨"__validation__", .INVALID_SCHEMA,
        "Missing required snapshot fields: " ++
          String.intercalate ", " guard_result.missing_paths,
        snapshot.snapshot_id, clock 0⟩] }

/-! ### Projections and sample data used by the claim theorems -/

/-- The error with its (clock-dependent) occurrence timestamp forgotten. -/
def EvaluationError.core (e : EvaluationError) : EvaluationError :=
  { e with occurred_at := 0 }

/-- The finding with its detection timestamp forgotten. -/
def Finding.core (f : Finding) : Finding :=
  { f with detected_at := 0 }

/-- The finding with its status forgotten. -/
def Finding.sansStatus (f : Finding) : Finding :=
  { f with status := FindingStatus.OPEN }

/-- Error codes counted by `rules_failed`. -/
def isFailureCode : EvaluationErrorCode → Bool
  | .UNKNOWN_RULE => true
  | .INVALID_SCHEMA => true
  | .RULE_EXCEPTION => true
  | .SKIPPED_MISSING_DATA => false

/-- Does the dotted metadata path `k1.k2` hold the boolean value `true`? -/
def metadataPathIsTrue (metadata : List (String × PyVal)) (k1 k2 : String) : Bool :=
  match pyLookup metadata k1 with
  | some (PyVal.dict m) =>
      match pyLookup m k2 with
      | some (PyVal.bool true) => true
      | _ => false
  | _ => false

def sampleRegistry : RuleRegistry :=
  ((RuleRegistry.mk []).register EncryptionEnabledRule).register SecureTransportRule

def sampleSnapshot : ResourceSnapshot :=
  { snapshot_id := "snap-1"
    account_id := some "123456789012"
    provider := Provider.AWS
    resource_type := ResourceType.S3_BUCKET
    resource_id := some "bucket-1"
    captured_at := some 42
    metadata := [("encryption", PyVal.dict [("enabled", PyVal.bool false)])] }

/-- Snapshot whose account id is absent (`None`). -/
def noAccountSnapshot : ResourceSnapshot :=
  { sampleSnapshot with account_id := Option.none }

def sampleCtx : EvaluationContext :=
  { correlation_id := "snap-1"
    evaluated_at := 42
    account_id := some "123456789012"
    provider := Provider.AWS
    resource_type := ResourceType.S3_BUCKET
    resource_id := some "bucket-1" }

/-- A rule raising an arbitrary unexpected exception. -/
def boomRule : PolicyRule :=
  { rule_id := "BOOM"
    rule_version := "1.0.0"
    default_severity := Severity.LOW
    evaluate := fun _ _ => .error (RuleErr.exc "ValueError" "boom") }

/-- A second rule under the same rule id, for the last-wins registration
check. -/
def boomRuleV2 : PolicyRule :=
  { boomRule with rule_version := "2.0.0" }

/-- A rule signalling its missing-data condition. -/
def skipRule : PolicyRule :=
  { rule_id := "SKIP"
    rule_version := "1.0.0"
    default_severity := Severity.LOW
    evaluate := fun _ _ =>
      .error (RuleErr.ruleSkippedMissingData "SKIP" ["metadata.acl_grants"]) }

/-- A rule signalling its invalid-schema condition. -/
def badSchemaRule : PolicyRule :=
  { rule_id := "BAD"
    rule_version := "1.0.0"
    default_severity := Severity.LOW
    evaluate := fun _ _ =>
      .error (RuleErr.ruleInvalidSchema "BAD" "Expected object at metadata.acl_grants") }

/-- A sample finding spec that carries its own severity recommendation. -/
def lowSpec : FindingSpec :=
  { finding_key := "low_key"
    title := "t"
    description := "d"
    evidence := { summary := "s" }
    remediation := { summary := "r" }
    severity := some Severity.LOW }

/-- A rule whose single finding spec self-declares severity LOW. -/
def specSevRule : PolicyRule :=
  { rule_id := "SPECSEV"
    rule_version := "1.0.0"
    default_severity := Severity.HIGH
    evaluate := fun _ _ => .ok [lowSpec] }

/-- Registry holding the two built-in rules plus the three misbehaving
sample rules. -/
def failRegistry : RuleRegistry :=
  ((((sampleRegistry.register boomRule).register skipRule).register
    badSchemaRule).register specSevRule)

/-- Engine over the built-in registry whose single config names an
unregistered rule id. -/
def unknownRuleEngine : PolicyEngine :=
  { repository := fun _ _ => [{ rule_id := "NOPE" }]
    registry := sampleRegistry }

/-- Engine over the built-in registry with the single encryption config. -/
def encryptionEngine : PolicyEngine :=
  { repository := fun _ _ => [{ rule_id := "S3_ENCRYPTION_DISABLED" }]
    registry := sampleRegistry }

/-- Engine whose single config carries the reserved validation sentinel as
its rule id, which is not registered. -/
def sentinelEngine : PolicyEngine :=
  { repository := fun _ _ => [{ rule_id := "__validation__" }]
    registry := sampleRegistry }

/-- Known-answer check: SHA-1 of the empty message. -/
theorem sha1_empty_vector :
    bytesHex (sha1 []) = "da39a3ee5e6b4b0d3255bfef95601890afd80709" := by
  decide

/-- Known-answer check: SHA-1 of "abc". -/
theorem sha1_abc_vector :
    bytesHex (sha1 (utf8Encode "abc")) =
      "a9993e364706816aba3e25717850c26c9cd0d89d" := by
  decide

end SkyWatch

namespace SkyWatch

/-- C1: the finding identifier produced by `FindingFactory.create` is the
name-based UUID version 5 of `"{snapshot_id}|{rule_id}|{finding_key}"`
under the fixed hard-coded namespace `FINDING_ID_NAMESPACE`; consequently
any two findings built from an identical (snapshot id, rule id, finding
key) triple carry the identical finding identifier, whatever the factory
instance or the remaining inputs (including timestamps). -/
theorem finding_id_is_uuid5_and_stable (ff1 ff2 : FindingFactory)
    (s1 s2 : ResourceSnapshot) (c1 c2 : EvaluationContext)
    (rid1 rid2 rv1 rv2 : String) (sev1 sev2 : Severity)
    (st1 st2 : FindingStatus) (spec1 spec2 : FindingSpec) :
    (ff1.create s1 c1 rid1 rv1 sev1 st1 spec1).finding_id =
      uuid5 FINDING_ID_NAMESPACE
        (s1.snapshot_id ++ "|" ++ rid1 ++ "|" ++ spec1.finding_key)
    ∧ (s1.snapshot_id = s2.snapshot_id → rid1 = rid2 →
       spec1.finding_key = spec2.finding_key →
       (ff1.create s1 c1 rid1 rv1 sev1 st1 spec1).finding_id =
         (ff2.create s2 c2 rid2 rv2 sev2 st2 spec2).finding_id) := by
  refine ⟨rfl, fun h1 h2 h3 => ?_⟩
  simp only [FindingFactory.create, _stable_finding_id, h1, h2, h3]

/-- Witness for C1: two factory calls sharing only the (snapshot id, rule
id, finding key) triple produce the same identifier, and it is the UUIDv5
value computed by the identity scheme. -/
theorem finding_id_is_uuid5_and_stable_witness :
    (FindingFactory.mk.create sampleSnapshot sampleCtx "S3_ENCRYPTION_DISABLED"
        "1.0.0" Severity.HIGH FindingStatus.OPEN
        { finding_key := "encryption_disabled", title := "t1", description := "d1"
          evidence := { summary := "e1" }, remediation := { summary := "r1" } }).finding_id =
      (FindingFactory.mk.create noAccountSnapshot sampleCtx "S3_ENCRYPTION_DISABLED"
        "2.0.0" Severity.LOW FindingStatus.SUPPRESSED
        { finding_key := "encryption_disabled", title := "t2", description := "d2"
          evidence := { summary := "e2" }, remediation := { summary := "r2" }
          severity := some Severity.MEDIUM }).finding_id
    ∧ (FindingFactory.mk.create sampleSnapshot sampleCtx "S3_ENCRYPTION_DISABLED"
        "1.0.0" Severity.HIGH FindingStatus.OPEN
        { finding_key := "encryption_disabled", title := "t1", description := "d1"
          evidence := { summary := "e1" }, remediation := { summary := "r1" } }).finding_id =
      "733ff5a3-688f-5b09-9a5b-4eb898bab3d3" := by
  refine ⟨(finding_id_is_uuid5_and_stable FindingFactory.mk FindingFactory.mk
    sampleSnapshot noAccountSnapshot sampleCtx sampleCtx
    "S3_ENCRYPTION_DISABLED" "S3_ENCRYPTION_DISABLED" "1.0.0" "2.0.0"
    Severity.HIGH Severity.LOW FindingStatus.OPEN FindingStatus.SUPPRESSED
    _ _).2 rfl rfl rfl, ?_⟩
  decide

end SkyWatch

namespace SkyWatch

theorem pyLookup_dictSet_self {α : Type} (d : List (String × α)) (k : String)
    (v : α) : pyLookup (dictSet d k v) k = some v := by
  induction d with
  | nil => simp [dictSet, pyLookup]
  | cons hd tl ih =>
    obtain ⟨k0, v0⟩ := hd
    by_cases h : k0 = k
    · simp [dictSet, h, pyLookup]
    · simp [dictSet, h, pyLookup, ih]

/-- C8: registering a rule and looking its id up round-trips; a second
registration under the same id silently replaces the first (last wins,
`register` never fails); looking up an unregistered id fails with the
UnknownRule condition instead of returning a rule. -/
theorem registry_roundtrip_lastwins_unknown (reg : RuleRegistry)
    (r r2 : PolicyRule) (rid : String) :
    (reg.register r).get r.rule_id = .ok r
    ∧ (r2.rule_id = r.rule_id →
        ((reg.register r).register r2).get r.rule_id = .ok r2)
    ∧ (pyLookup reg._rules rid = Option.none →
        reg.get rid = .error ⟨rid⟩) := by
  refine ⟨?_, fun h => ?_, fun h => ?_⟩
  · simp [RuleRegistry.register, RuleRegistry.get, pyLookup_dictSet_self]
  · simp [RuleRegistry.register, RuleRegistry.get, ← h, pyLookup_dictSet_self]
  · simp [RuleRegistry.get, h]

/-- Witness for C8: a concrete register/overwrite/lookup triple: round-trip
on "BOOM", last registration wins, and "NOPE" is reported unknown. -/
theorem registry_roundtrip_lastwins_unknown_witness :
    (sampleRegistry.register boomRule).get "BOOM" = .ok boomRule
    ∧ ((sampleRegistry.register boomRule).register boomRuleV2).get "BOOM" =
        .ok boomRuleV2
    ∧ sampleRegistry.get "NOPE" = .error ⟨"NOPE"⟩ :=
  ⟨(registry_roundtrip_lastwins_unknown sampleRegistry boomRule boomRuleV2 "NOPE").1,
   (registry_roundtrip_lastwins_unknown sampleRegistry boomRule boomRuleV2 "NOPE").2.1 rfl,
   (registry_roundtrip_lastwins_unknown sampleRegistry boomRule boomRuleV2 "NOPE").2.2 rfl⟩

/-- C4: `_resolve_severity` follows the strict three-layer precedence: the
config override when set, else the severity of the FindingSpec when the
rule set one, else the rule's default severity. -/
theorem severity_resolution_precedence (rule : PolicyRule) (cfg : RuleConfig)
    (spec_severity : Option Severity) :
    (∀ s, cfg.severity_override = some s →
      _resolve_severity rule cfg spec_severity = s)
    ∧ (cfg.severity_override = Option.none → ∀ s, spec_severity = some s →
        _resolve_severity rule cfg spec_severity = s)
    ∧ (cfg.severity_override = Option.none → spec_severity = Option.none →
        _resolve_severity rule cfg spec_severity = rule.default_severity) := by
  refine ⟨?_, ?_, ?_⟩ <;> intros <;> simp_all [_resolve_severity]

/-- Witness for C4: three configs — with CRITICAL override, without
override over a spec-declared LOW, and with neither over a HIGH-default
rule — resolve to three different severities. -/
theorem severity_resolution_precedence_witness :
    _resolve_severity specSevRule
      { rule_id := "SPECSEV", severity_override := some Severity.CRITICAL }
      (some Severity.LOW) = Severity.CRITICAL
    ∧ _resolve_severity specSevRule { rule_id := "SPECSEV" }
        (some Severity.LOW) = Severity.LOW
    ∧ _resolve_severity specSevRule { rule_id := "SPECSEV" }
        Option.none = Severity.HIGH :=
  ⟨(severity_resolution_precedence specSevRule
      { rule_id := "SPECSEV", severity_override := some Severity.CRITICAL }
      (some Severity.LOW)).1 Severity.CRITICAL rfl,
   (severity_resolution_precedence specSevRule { rule_id := "SPECSEV" }
      (some Severity.LOW)).2.1 rfl Severity.LOW rfl,
   (severity_resolution_precedence specSevRule { rule_id := "SPECSEV" }
      Option.none).2.2 rfl rfl⟩

end SkyWatch


namespace SkyWatch

theorem encryption_eval_shape (snapshot : ResourceSnapshot)
    (params : Option (List (String × PyVal))) :
    (EncryptionEnabledRule.evaluate snapshot params = .ok [] ↔
      metadataPathIsTrue snapshot.metadata "encryption" "enabled" = true)
    ∧ (metadataPathIsTrue snapshot.metadata "encryption" "enabled" = false →
        ∃ s, EncryptionEnabledRule.evaluate snapshot params = .ok [s]
          ∧ s.finding_key = "encryption_disabled" ∧ s.severity = Option.none)
    ∧ (∃ specs, EncryptionEnabledRule.evaluate snapshot params = .ok specs) := by
  unfold EncryptionEnabledRule.evaluate metadataPathIsTrue
  cases h1 : pyLookup snapshot.metadata "encryption" with
  | none => simp [pyGet, h1]
  | some v =>
    cases v <;> simp [pyGet, h1]
    case dict xs =>
      cases h3 : pyLookup xs "enabled" with
      | none => simp [pyGet, h3]
      | some w =>
        cases w <;> simp [pyGet, h3]
        case bool b => cases b <;> simp

theorem transport_eval_shape (snapshot : ResourceSnapshot)
    (params : Option (List (String × PyVal))) :
    (SecureTransportRule.evaluate snapshot params = .ok [] ↔
      metadataPathIsTrue snapshot.metadata "transport" "requires_tls" = true)
    ∧ (metadataPathIsTrue snapshot.metadata "transport" "requires_tls" = false →
        ∃ s, SecureTransportRule.evaluate snapshot params = .ok [s]
          ∧ s.finding_key = "tls_not_enforced" ∧ s.severity = Option.none)
    ∧ (∃ specs, SecureTransportRule.evaluate snapshot params = .ok specs) := by
  unfold SecureTransportRule.evaluate metadataPathIsTrue
  cases h1 : pyLookup snapshot.metadata "transport" with
  | none => simp [pyGet, h1]
  | some v =>
    cases v <;> simp [pyGet, h1]
    case dict xs =>
      cases h3 : pyLookup xs "requires_tls" with
      | none => simp [pyGet, h3]
      | some w =>
        cases w <;> simp [pyGet, h3]
        case bool b => cases b <;> simp

/-- C10: the built-in encryption and secure-transport rules fail closed and
never signal the missing-data or invalid-schema conditions: evaluation
returns the empty list exactly when `metadata.encryption.enabled`
(respectively `metadata.transport.requires_tls`) is the boolean value
`true`, and in every other case — the key absent, `None`, or of the wrong
shape — returns exactly one FindingSpec with finding key
"encryption_disabled" (respectively "tls_not_enforced") and no
self-declared severity. -/
theorem builtin_rules_fail_closed (snapshot : ResourceSnapshot)
    (params : Option (List (String × PyVal))) :
    (EncryptionEnabledRule.evaluate snapshot params = .ok [] ↔
      metadataPathIsTrue snapshot.metadata "encryption" "enabled" = true)
    ∧ (metadataPathIsTrue snapshot.metadata "encryption" "enabled" = false →
        ∃ s, EncryptionEnabledRule.evaluate snapshot params = .ok [s]
          ∧ s.finding_key = "encryption_disabled" ∧ s.severity = Option.none)
    ∧ (∃ specs, EncryptionEnabledRule.evaluate snapshot params = .ok specs)
    ∧ (SecureTransportRule.evaluate snapshot params = .ok [] ↔
      metadataPathIsTrue snapshot.metadata "transport" "requires_tls" = true)
    ∧ (metadataPathIsTrue snapshot.metadata "transport" "requires_tls" = false →
        ∃ s, SecureTransportRule.evaluate snapshot params = .ok [s]
          ∧ s.finding_key = "tls_not_enforced" ∧ s.severity = Option.none)
    ∧ (∃ specs, SecureTransportRule.evaluate snapshot params = .ok specs) :=
  ⟨(encryption_eval_shape snapshot params).1,
   (encryption_eval_shape snapshot params).2.1,
   (encryption_eval_shape snapshot params).2.2,
   (transport_eval_shape snapshot params).1,
   (transport_eval_shape snapshot params).2.1,
   (transport_eval_shape snapshot params).2.2⟩

/-- Witness for C10: on the sample snapshot (encryption explicitly
disabled, transport data absent) both rules emit exactly one spec with the
expected finding key and no self-declared severity. -/
theorem builtin_rules_fail_closed_witness :
    metadataPathIsTrue sampleSnapshot.metadata "encryption" "enabled" = false
    ∧ metadataPathIsTrue sampleSnapshot.metadata "transport" "requires_tls" = false
    ∧ (∃ s, EncryptionEnabledRule.evaluate sampleSnapshot Option.none = .ok [s]
        ∧ s.finding_key = "encryption_disabled" ∧ s.severity = Option.none)
    ∧ (∃ s, SecureTransportRule.evaluate sampleSnapshot Option.none = .ok [s]
        ∧ s.finding_key = "tls_not_enforced" ∧ s.severity = Option.none) :=
  ⟨rfl, rfl,
   (builtin_rules_fail_closed sampleSnapshot Option.none).2.1 rfl,
   (builtin_rules_fail_closed sampleSnapshot Option.none).2.2.2.2.1 rfl⟩

end SkyWatch

namespace SkyWatch

theorem guard_always_passes (snapshot : ResourceSnapshot) :
    (NormalizationGuard.require (snapshotDict snapshot)
      ["account_id", "resource_id", "resource_type"]).missing_paths = [] := by
  obtain ⟨sid, aid, prov, rt, rid, cap, md⟩ := snapshot
  cases aid <;> cases rid <;> cases rt <;> rfl

theorem evaluate_main (engine : PolicyEngine) (snapshot : ResourceSnapshot)
    (clock : Nat → DTime) (duration_ms : Nat) :
    engine.evaluate snapshot clock duration_ms =
      { findings := (evalLoop engine.registry engine.finding_factory snapshot
          (buildCtx snapshot clock).1 clock (buildCtx snapshot clock).2
          (engine.repository snapshot.resource_type snapshot.account_id)).1
        stats := { rules_evaluated :=
                     (engine.repository snapshot.resource_type snapshot.account_id).length
                   rules_failed := (evalLoop engine.registry engine.finding_factory
                     snapshot (buildCtx snapshot clock).1 clock
                     (buildCtx snapshot clock).2
                     (engine.repository snapshot.resource_type snapshot.account_id)).2.2
                   duration_ms := duration_ms }
        errors := (evalLoop engine.registry engine.finding_factory snapshot
          (buildCtx snapshot clock).1 clock (buildCtx snapshot clock).2
          (engine.repository snapshot.resource_type snapshot.account_id)).2.1 } := by
  unfold PolicyEngine.evaluate
  simp [guard_always_passes]

theorem evalConfig_parts (registry : RuleRegistry) (ff : FindingFactory)
    (snapshot : ResourceSnapshot) (ctx1 ctx2 : EvaluationContext)
    (cfg : RuleConfig) (n1 n2 : DTime) :
    (evalConfig registry ff snapshot ctx1 cfg n1).1 =
      (evalConfig registry ff snapshot ctx1 cfg n2).1
    ∧ (evalConfig registry ff snapshot ctx1 cfg n1).1.map Finding.core =
      (evalConfig registry ff snapshot ctx2 cfg n2).1.map Finding.core
    ∧ (evalConfig registry ff snapshot ctx1 cfg n1).2.1.map EvaluationError.core =
      (evalConfig registry ff snapshot ctx2 cfg n2).2.1.map EvaluationError.core
    ∧ (evalConfig registry ff snapshot ctx1 cfg n1).2.1.isSome =
      (evalConfig registry ff snapshot ctx2 cfg n2).2.1.isSome
    ∧ (evalConfig registry ff snapshot ctx1 cfg n1).2.2 =
      (evalConfig registry ff snapshot ctx2 cfg n2).2.2 := by
  unfold evalConfig
  cases hg : registry.get cfg.rule_id with
  | error e => simp [EvaluationError.core]
  | ok rule =>
    by_cases hs : rule.supports snapshot.resource_type
    · simp only [hs, not_true_eq_false, if_false, Bool.not_true]
      cases he : rule.evaluate snapshot cfg.params with
      | error err => cases err <;> simp [EvaluationError.core]
      | ok specs =>
        refine ⟨rfl, ?_, rfl, rfl, rfl⟩
        simp only [List.map_map]
        exact List.map_congr_left (fun a _ => rfl)
    · simp [hs]

end SkyWatch

namespace SkyWatch

theorem evalConfig_errlen (registry : RuleRegistry) (ff : FindingFactory)
    (snapshot : ResourceSnapshot) (ctx1 ctx2 : EvaluationContext)
    (cfg : RuleConfig) (n1 n2 : DTime) :
    (evalConfig registry ff snapshot ctx1 cfg n1).2.1.toList.length =
      (evalConfig registry ff snapshot ctx2 cfg n2).2.1.toList.length := by
  unfold evalConfig
  cases hg : registry.get cfg.rule_id with
  | error e => rfl
  | ok rule =>
    by_cases hs : rule.supports snapshot.resource_type
    · simp only [hs, Bool.not_true, not_true_eq_false, if_false]
      cases he : rule.evaluate snapshot cfg.params with
      | error err => cases err <;> rfl
      | ok specs => rfl
    · simp [hs]

theorem evalLoop_findings_clock (registry : RuleRegistry) (ff : FindingFactory)
    (snapshot : ResourceSnapshot) (ctx : EvaluationContext)
    (clock1 clock2 : Nat → DTime) (cfgs : List RuleConfig) :
    ∀ i1 i2 : Nat,
    (evalLoop registry ff snapshot ctx clock1 i1 cfgs).1 =
      (evalLoop registry ff snapshot ctx clock2 i2 cfgs).1 := by
  induction cfgs with
  | nil => intro i1 i2; rfl
  | cons cfg rest ih =>
    intro i1 i2
    simp only [evalLoop]
    rw [(evalConfig_parts registry ff snapshot ctx ctx cfg (clock1 i1) (clock2 i2)).1,
        ih _ _]

end SkyWatch

namespace SkyWatch

theorem evalLoop_errs_core (registry : RuleRegistry) (ff : FindingFactory)
    (snapshot : ResourceSnapshot) (ctx1 ctx2 : EvaluationContext)
    (clock1 clock2 : Nat → DTime) (cfgs : List RuleConfig) :
    ∀ i1 i2 : Nat,
    (evalLoop registry ff snapshot ctx1 clock1 i1 cfgs).2.1.map EvaluationError.core =
      (evalLoop registry ff snapshot ctx2 clock2 i2 cfgs).2.1.map EvaluationError.core
    ∧ (evalLoop registry ff snapshot ctx1 clock1 i1 cfgs).2.2 =
      (evalLoop registry ff snapshot ctx2 clock2 i2 cfgs).2.2 := by
  induction cfgs with
  | nil => intro i1 i2; exact ⟨rfl, rfl⟩
  | cons cfg rest ih =>
    intro i1 i2
    have hc := evalConfig_parts registry ff snapshot ctx1 ctx2 cfg (clock1 i1) (clock2 i2)
    have hopt : (evalConfig registry ff snapshot ctx1 cfg (clock1 i1)).2.1.toList.map
        EvaluationError.core =
        (evalConfig registry ff snapshot ctx2 cfg (clock2 i2)).2.1.toList.map
        EvaluationError.core := by
      have h := hc.2.2.1
      cases h1 : (evalConfig registry ff snapshot ctx1 cfg (clock1 i1)).2.1 <;>
        cases h2 : (evalConfig registry ff snapshot ctx2 cfg (clock2 i2)).2.1 <;>
        rw [h1, h2] at h <;> simp_all
    simp only [evalLoop, List.map_append]
    exact ⟨by rw [hopt, (ih _ _).1], by rw [hc.2.2.2.2, (ih _ _).2]⟩

theorem evalLoop_findings_core (registry : RuleRegistry) (ff : FindingFactory)
    (snapshot : ResourceSnapshot) (ctx1 ctx2 : EvaluationContext)
    (clock1 clock2 : Nat → DTime) (cfgs : List RuleConfig) :
    ∀ i1 i2 : Nat,
    (evalLoop registry ff snapshot ctx1 clock1 i1 cfgs).1.map Finding.core =
      (evalLoop registry ff snapshot ctx2 clock2 i2 cfgs).1.map Finding.core := by
  induction cfgs with
  | nil => intro i1 i2; rfl
  | cons cfg rest ih =>
    intro i1 i2
    simp only [evalLoop, List.map_append]
    rw [(evalConfig_parts registry ff snapshot ctx1 ctx2 cfg (clock1 i1) (clock2 i2)).2.1,
        ih _ _]

end SkyWatch

namespace SkyWatch

theorem evalLoop_append (registry : RuleRegistry) (ff : FindingFactory)
    (snapshot : ResourceSnapshot) (ctx : EvaluationContext)
    (clock : Nat → DTime) (xs ys : List RuleConfig) :
    ∀ i : Nat,
    evalLoop registry ff snapshot ctx clock i (xs ++ ys) =
      ((evalLoop registry ff snapshot ctx clock i xs).1 ++
        (evalLoop registry ff snapshot ctx clock
          (i + (evalLoop registry ff snapshot ctx clock i xs).2.1.length) ys).1,
       (evalLoop registry ff snapshot ctx clock i xs).2.1 ++
        (evalLoop registry ff snapshot ctx clock
          (i + (evalLoop registry ff snapshot ctx clock i xs).2.1.length) ys).2.1,
       (evalLoop registry ff snapshot ctx clock i xs).2.2 +
        (evalLoop registry ff snapshot ctx clock
          (i + (evalLoop registry ff snapshot ctx clock i xs).2.1.length) ys).2.2) := by
  induction xs with
  | nil => intro i; simp [evalLoop]
  | cons cfg rest ih =>
    intro i
    simp [List.cons_append, evalLoop, ih, List.append_assoc, List.length_append,
      Nat.add_assoc]

theorem evalConfig_failed_le_one (registry : RuleRegistry) (ff : FindingFactory)
    (snapshot : ResourceSnapshot) (ctx : EvaluationContext) (cfg : RuleConfig)
    (now : DTime) :
    (evalConfig registry ff snapshot ctx cfg now).2.2 =
      ((evalConfig registry ff snapshot ctx cfg now).2.1.toList.filter
        (fun e => isFailureCode e.error_code)).length
    ∧ (evalConfig registry ff snapshot ctx cfg now).2.2 ≤ 1 := by
  unfold evalConfig
  cases hg : registry.get cfg.rule_id with
  | error e => simp [isFailureCode]
  | ok rule =>
    by_cases hs : rule.supports snapshot.resource_type
    · simp only [hs, Bool.not_true, not_true_eq_false, if_false]
      cases he : rule.evaluate snapshot cfg.params with
      | error err => cases err <;> simp [isFailureCode]
      | ok specs => simp
    · simp [hs]

theorem evalLoop_counts (registry : RuleRegistry) (ff : FindingFactory)
    (snapshot : ResourceSnapshot) (ctx : EvaluationContext)
    (clock : Nat → DTime) (cfgs : List RuleConfig) :
    ∀ i : Nat,
    (evalLoop registry ff snapshot ctx clock i cfgs).2.2 =
      ((evalLoop registry ff snapshot ctx clock i cfgs).2.1.filter
        (fun e => isFailureCode e.error_code)).length
    ∧ (evalLoop registry ff snapshot ctx clock i cfgs).2.2 ≤ cfgs.length := by
  induction cfgs with
  | nil => intro i; exact ⟨rfl, Nat.le_refl 0⟩
  | cons cfg rest ih =>
    intro i
    have hc := evalConfig_failed_le_one registry ff snapshot ctx cfg (clock i)
    have hr := ih (i + (evalConfig registry ff snapshot ctx cfg (clock i)).2.1.toList.length)
    simp only [evalLoop, List.filter_append, List.length_append, List.length_cons]
    constructor
    · rw [hc.1, hr.1]
    · omega

theorem evalConfig_error_rule_id (registry : RuleRegistry) (ff : FindingFactory)
    (snapshot : ResourceSnapshot) (ctx : EvaluationContext) (cfg : RuleConfig)
    (now : DTime) :
    ∀ e ∈ (evalConfig registry ff snapshot ctx cfg now).2.1.toList,
      e.rule_id = cfg.rule_id ∧ e.snapshot_id = snapshot.snapshot_id := by
  unfold evalConfig
  cases hg : registry.get cfg.rule_id with
  | error err => simp
  | ok rule =>
    by_cases hs : rule.supports snapshot.resource_type
    · simp only [hs, Bool.not_true, not_true_eq_false, if_false]
      cases he : rule.evaluate snapshot cfg.params with
      | error err => cases err <;> simp
      | ok specs => simp
    · simp [hs]

theorem evalLoop_errors_from_configs (registry : RuleRegistry) (ff : FindingFactory)
    (snapshot : ResourceSnapshot) (ctx : EvaluationContext)
    (clock : Nat → DTime) (cfgs : List RuleConfig) :
    ∀ i : Nat, ∀ e ∈ (evalLoop registry ff snapshot ctx clock i cfgs).2.1,
      (∃ cfg ∈ cfgs, e.rule_id = cfg.rule_id) ∧
        e.snapshot_id = snapshot.snapshot_id := by
  induction cfgs with
  | nil => intro i e he; simp [evalLoop] at he
  | cons cfg rest ih =>
    intro i e he
    simp only [evalLoop, List.mem_append] at he
    rcases he with he | he
    · have := evalConfig_error_rule_id registry ff snapshot ctx cfg (clock i) e he
      exact ⟨⟨cfg, List.mem_cons_self cfg rest, this.1⟩, this.2⟩
    · have := ih _ e he
      obtain ⟨⟨c, hc, hid⟩, hsnap⟩ := this
      exact ⟨⟨c, List.mem_cons_of_mem cfg hc, hid⟩, hsnap⟩

end SkyWatch

namespace SkyWatch

/-- C2 counterexample: with a config that fails registry lookup, two calls
on identical inputs differing only in the `utc_now` clock stream return
results with equal `duration_ms` yet unequal error lists (the occurrence
timestamps differ) — so the results differ in something other than
`duration_ms`. -/
theorem evaluate_clock_leaks_into_errors :
    (unknownRuleEngine.evaluate sampleSnapshot (fun _ => 0) 5).stats.duration_ms =
      (unknownRuleEngine.evaluate sampleSnapshot (fun _ => 1) 5).stats.duration_ms
    ∧ (unknownRuleEngine.evaluate sampleSnapshot (fun _ => 0) 5).errors ≠
      (unknownRuleEngine.evaluate sampleSnapshot (fun _ => 1) 5).errors := by
  exact ⟨rfl, by decide⟩

/-- C2 amended: for fixed snapshot, rule configs and registry contents,
two calls agree on all finding fields except possibly `detected_at`
(and agree on findings exactly when the snapshot carries a capture time),
agree on all error fields except the occurrence timestamps, and agree on
`rules_evaluated` and `rules_failed`; `duration_ms` and those timestamps
are the only values that can vary between calls. -/
theorem evaluate_deterministic_up_to_time (engine : PolicyEngine)
    (snapshot : ResourceSnapshot) (clock1 clock2 : Nat → DTime) (d1 d2 : Nat) :
    (engine.evaluate snapshot clock1 d1).findings.map Finding.core =
      (engine.evaluate snapshot clock2 d2).findings.map Finding.core
    ∧ (∀ t, snapshot.captured_at = some t →
        (engine.evaluate snapshot clock1 d1).findings =
          (engine.evaluate snapshot clock2 d2).findings)
    ∧ (engine.evaluate snapshot clock1 d1).errors.map EvaluationError.core =
      (engine.evaluate snapshot clock2 d2).errors.map EvaluationError.core
    ∧ (engine.evaluate snapshot clock1 d1).stats.rules_evaluated =
      (engine.evaluate snapshot clock2 d2).stats.rules_evaluated
    ∧ (engine.evaluate snapshot clock1 d1).stats.rules_failed =
      (engine.evaluate snapshot clock2 d2).stats.rules_failed := by
  rw [evaluate_main engine snapshot clock1 d1, evaluate_main engine snapshot clock2 d2]
  refine ⟨?_, ?_, ?_, rfl, ?_⟩
  · exact evalLoop_findings_core engine.registry engine.finding_factory snapshot
      (buildCtx snapshot clock1).1 (buildCtx snapshot clock2).1 clock1 clock2
      (engine.repository snapshot.resource_type snapshot.account_id) _ _
  · intro t ht
    have hctx : buildCtx snapshot clock1 = buildCtx snapshot clock2 := by
      simp [buildCtx, ht]
    show (evalLoop engine.registry engine.finding_factory snapshot
        (buildCtx snapshot clock1).1 clock1 (buildCtx snapshot clock1).2
        (engine.repository snapshot.resource_type snapshot.account_id)).1 =
      (evalLoop engine.registry engine.finding_factory snapshot
        (buildCtx snapshot clock2).1 clock2 (buildCtx snapshot clock2).2
        (engine.repository snapshot.resource_type snapshot.account_id)).1
    rw [← hctx]
    exact evalLoop_findings_clock engine.registry engine.finding_factory snapshot
      (buildCtx snapshot clock1).1 clock1 clock2
      (engine.repository snapshot.resource_type snapshot.account_id) _ _
  · exact (evalLoop_errs_core engine.registry engine.finding_factory snapshot
      (buildCtx snapshot clock1).1 (buildCtx snapshot clock2).1 clock1 clock2
      (engine.repository snapshot.resource_type snapshot.account_id) _ _).1
  · exact (evalLoop_errs_core engine.registry engine.finding_factory snapshot
      (buildCtx snapshot clock1).1 (buildCtx snapshot clock2).1 clock1 clock2
      (engine.repository snapshot.resource_type snapshot.account_id) _ _).2

/-- Witness for C2 (amended): on the sample snapshot, which carries a
capture time, two calls under different clocks and durations produce
literally equal finding lists. -/
theorem evaluate_deterministic_up_to_time_witness :
    sampleSnapshot.captured_at = some 42
    ∧ (encryptionEngine.evaluate sampleSnapshot (fun _ => 0) 5).findings =
      (encryptionEngine.evaluate sampleSnapshot (fun _ => 1) 7).findings :=
  ⟨rfl, (evaluate_deterministic_up_to_time encryptionEngine sampleSnapshot
    (fun _ => 0) (fun _ => 1) 5 7).2.1 42 rfl⟩

end SkyWatch

namespace SkyWatch

/-- C3 counterexample: a snapshot whose account id is absent (`None`) is
not short-circuited: the probed dict still contains the "account_id" key,
so `evaluate` returns no error at all, runs the configured rule
(rules_evaluated = 1, not 0) and produces a finding — there is no
INVALID_SCHEMA validation error. -/
theorem missing_account_id_not_short_circuited :
    (encryptionEngine.evaluate noAccountSnapshot (fun _ => 0) 5).errors = []
    ∧ (encryptionEngine.evaluate noAccountSnapshot (fun _ => 0) 5).stats.rules_evaluated = 1
    ∧ (encryptionEngine.evaluate noAccountSnapshot (fun _ => 0) 5).findings.length = 1 :=
  ⟨rfl, rfl, rfl⟩

/-- C3 amended/nearby statement: the dict probed by the guard always
contains all three keys, so `NormalizationGuard.require` never reports a
missing path and the short-circuit branch is unreachable: for every
snapshot — even one whose account id or resource id is absent —
`evaluate` proceeds to rule evaluation, `rules_evaluated` equals the
number of configs returned by the repository, and every returned error
carries some config's rule id (none carries the reserved sentinel unless a
config is so named). -/
theorem validation_short_circuit_unreachable (engine : PolicyEngine)
    (snapshot : ResourceSnapshot) (clock : Nat → DTime) (d : Nat) :
    (NormalizationGuard.require (snapshotDict snapshot)
      ["account_id", "resource_id", "resource_type"]).missing_paths = []
    ∧ (engine.evaluate snapshot clock d).stats.rules_evaluated =
        (engine.repository snapshot.resource_type snapshot.account_id).length
    ∧ ∀ e ∈ (engine.evaluate snapshot clock d).errors,
        ∃ cfg ∈ engine.repository snapshot.resource_type snapshot.account_id,
          e.rule_id = cfg.rule_id := by
  refine ⟨guard_always_passes snapshot, ?_, ?_⟩
  · rw [evaluate_main]
  · rw [evaluate_main]
    intro e he
    exact (evalLoop_errors_from_configs engine.registry engine.finding_factory
      snapshot (buildCtx snapshot clock).1 clock
      (engine.repository snapshot.resource_type snapshot.account_id)
      (buildCtx snapshot clock).2 e he).1

/-- Witness for C3 (amended): applied to the engine with an unknown rule
id, the one UNKNOWN_RULE error indeed carries the config's rule id. -/
theorem validation_short_circuit_unreachable_witness :
    ∃ cfg ∈ unknownRuleEngine.repository sampleSnapshot.resource_type
        sampleSnapshot.account_id,
      ({ rule_id := "NOPE", error_code := EvaluationErrorCode.UNKNOWN_RULE
         message := "Unknown rule_id: NOPE", snapshot_id := "snap-1"
         occurred_at := 0 } : EvaluationError).rule_id = cfg.rule_id :=
  (validation_short_circuit_unreachable unknownRuleEngine sampleSnapshot
    (fun _ => 0) 5).2.2 _ (by decide)

end SkyWatch

namespace SkyWatch

/-- C5: isolation of an unexpectedly failing rule: with the failing config
present, findings are exactly those produced with it absent, rules_failed
and rules_evaluated grow by exactly one, and exactly one RULE_EXCEPTION
error carrying the failure's type name and message is inserted between the
surrounding configs' errors; `evaluate` is a total function of its inputs,
so no failure of a rule invocation escapes as a raised exception. -/
theorem rule_exception_isolation (registry : RuleRegistry) (ff : FindingFactory)
    (snapshot : ResourceSnapshot) (clock : Nat → DTime) (d : Nat)
    (cs1 cs2 : List RuleConfig) (cfg : RuleConfig) (rule : PolicyRule)
    (ty msg : String)
    (hget : registry.get cfg.rule_id = .ok rule)
    (hsupp : rule.supports snapshot.resource_type = true)
    (heval : rule.evaluate snapshot cfg.params = .error (RuleErr.exc ty msg)) :
    ((PolicyEngine.mk (fun _ _ => cs1 ++ cfg :: cs2) registry ff).evaluate
        snapshot clock d).findings =
      ((PolicyEngine.mk (fun _ _ => cs1 ++ cs2) registry ff).evaluate
        snapshot clock d).findings
    ∧ ((PolicyEngine.mk (fun _ _ => cs1 ++ cfg :: cs2) registry ff).evaluate
        snapshot clock d).stats.rules_failed =
      ((PolicyEngine.mk (fun _ _ => cs1 ++ cs2) registry ff).evaluate
        snapshot clock d).stats.rules_failed + 1
    ∧ ((PolicyEngine.mk (fun _ _ => cs1 ++ cfg :: cs2) registry ff).evaluate
        snapshot clock d).stats.rules_evaluated =
      ((PolicyEngine.mk (fun _ _ => cs1 ++ cs2) registry ff).evaluate
        snapshot clock d).stats.rules_evaluated + 1
    ∧ ∃ es1 es2 : List EvaluationError,
        ((PolicyEngine.mk (fun _ _ => cs1 ++ cs2) registry ff).evaluate
          snapshot clock d).errors.map EvaluationError.core = es1 ++ es2
        ∧ ((PolicyEngine.mk (fun _ _ => cs1 ++ cfg :: cs2) registry ff).evaluate
            snapshot clock d).errors.map EvaluationError.core =
          es1 ++ ⟨cfg.rule_id, EvaluationErrorCode.RULE_EXCEPTION,
                  ty ++ ": " ++ msg, snapshot.snapshot_id, 0⟩ :: es2 := by
  rw [evaluate_main, evaluate_main]
  have hcfg : ∀ n : DTime, evalConfig registry ff snapshot
      (buildCtx snapshot clock).1 cfg n =
      ([], some ⟨cfg.rule_id, EvaluationErrorCode.RULE_EXCEPTION,
        ty ++ ": " ++ msg, snapshot.snapshot_id, n⟩, 1) := by
    intro n
    unfold evalConfig
    rw [hget]
    simp [hsupp, heval]
  have happ1 := evalLoop_append registry ff snapshot (buildCtx snapshot clock).1
    clock cs1 (cfg :: cs2) (buildCtx snapshot clock).2
  have happ2 := evalLoop_append registry ff snapshot (buildCtx snapshot clock).1
    clock cs1 cs2 (buildCtx snapshot clock).2
  rw [happ1, happ2]
  set A := evalLoop registry ff snapshot (buildCtx snapshot clock).1 clock
    (buildCtx snapshot clock).2 cs1 with hA
  set j := (buildCtx snapshot clock).2 + A.2.1.length with hj
  have hstep : evalLoop registry ff snapshot (buildCtx snapshot clock).1 clock j
      (cfg :: cs2) =
      ((evalLoop registry ff snapshot (buildCtx snapshot clock).1 clock (j + 1) cs2).1,
       ⟨cfg.rule_id, EvaluationErrorCode.RULE_EXCEPTION, ty ++ ": " ++ msg,
         snapshot.snapshot_id, clock j⟩ ::
         (evalLoop registry ff snapshot (buildCtx snapshot clock).1 clock (j + 1) cs2).2.1,
       1 + (evalLoop registry ff snapshot (buildCtx snapshot clock).1 clock (j + 1) cs2).2.2) := by
    simp only [evalLoop, hcfg]
    rfl
  rw [hstep]
  refine ⟨?_, ?_, ?_, ?_⟩
  · simp only []
    rw [evalLoop_findings_clock registry ff snapshot (buildCtx snapshot clock).1
      clock clock cs2 (j + 1) j]
  · simp only []
    have := (evalLoop_errs_core registry ff snapshot (buildCtx snapshot clock).1
      (buildCtx snapshot clock).1 clock clock cs2 (j + 1) j).2
    omega
  · simp only [List.length_append, List.length_cons]
    omega
  · refine ⟨A.2.1.map EvaluationError.core,
      (evalLoop registry ff snapshot (buildCtx snapshot clock).1 clock j cs2).2.1.map
        EvaluationError.core, by simp, ?_⟩
    simp only [List.map_append, List.map_cons]
    rw [(evalLoop_errs_core registry ff snapshot (buildCtx snapshot clock).1
      (buildCtx snapshot clock).1 clock clock cs2 (j + 1) j).1]
    rfl

end SkyWatch

namespace SkyWatch

/-- Witness for C5: with the encryption config followed by the raising
"BOOM" config, findings equal those of the engine without the failing
config, and rules_failed is one larger. -/
theorem rule_exception_isolation_witness :
    ((PolicyEngine.mk
        (fun _ _ => [{ rule_id := "S3_ENCRYPTION_DISABLED" }, { rule_id := "BOOM" }])
        failRegistry {}).evaluate sampleSnapshot (fun _ => 9) 5).findings =
      ((PolicyEngine.mk (fun _ _ => [{ rule_id := "S3_ENCRYPTION_DISABLED" }])
        failRegistry {}).evaluate sampleSnapshot (fun _ => 9) 5).findings
    ∧ ((PolicyEngine.mk
        (fun _ _ => [{ rule_id := "S3_ENCRYPTION_DISABLED" }, { rule_id := "BOOM" }])
        failRegistry {}).evaluate sampleSnapshot (fun _ => 9) 5).stats.rules_failed =
      ((PolicyEngine.mk (fun _ _ => [{ rule_id := "S3_ENCRYPTION_DISABLED" }])
        failRegistry {}).evaluate sampleSnapshot (fun _ => 9) 5).stats.rules_failed + 1 :=
  ⟨(rule_exception_isolation failRegistry {} sampleSnapshot (fun _ => 9) 5
      [{ rule_id := "S3_ENCRYPTION_DISABLED" }] [] { rule_id := "BOOM" } boomRule
      "ValueError" "boom" rfl rfl rfl).1,
   (rule_exception_isolation failRegistry {} sampleSnapshot (fun _ => 9) 5
      [{ rule_id := "S3_ENCRYPTION_DISABLED" }] [] { rule_id := "BOOM" } boomRule
      "ValueError" "boom" rfl rfl rfl).2.1⟩

end SkyWatch

namespace SkyWatch

/-- C6: accounting of failures per config: a failed registry lookup yields
the UNKNOWN_RULE error and a rules_failed increment of one; a rule
signalling missing data yields the SKIPPED_MISSING_DATA error with no
increment; invalid schema and any other raised failure each yield their
error with an increment of one; and rules_evaluated counts every config
the repository returned, including those that failed lookup. -/
theorem stats_error_accounting (registry : RuleRegistry) (ff : FindingFactory)
    (snapshot : ResourceSnapshot) (ctx : EvaluationContext) (cfg : RuleConfig)
    (now : DTime) (rule : PolicyRule) (rid msg ty : String)
    (paths : List String) (engine : PolicyEngine) (clock : Nat → DTime) (d : Nat) :
    (pyLookup registry._rules cfg.rule_id = Option.none →
      evalConfig registry ff snapshot ctx cfg now =
        ([], some ⟨cfg.rule_id, EvaluationErrorCode.UNKNOWN_RULE,
          "Unknown rule_id: " ++ cfg.rule_id, snapshot.snapshot_id, now⟩, 1))
    ∧ (registry.get cfg.rule_id = .ok rule →
       rule.supports snapshot.resource_type = true →
        (rule.evaluate snapshot cfg.params =
            .error (RuleErr.ruleSkippedMissingData rid paths) →
          evalConfig registry ff snapshot ctx cfg now =
            ([], some ⟨cfg.rule_id, EvaluationErrorCode.SKIPPED_MISSING_DATA,
              "Rule " ++ rid ++ " skipped: missing required data: " ++
                pyStrListRepr paths, snapshot.snapshot_id, now⟩, 0))
        ∧ (rule.evaluate snapshot cfg.params =
             .error (RuleErr.ruleInvalidSchema rid msg) →
          evalConfig registry ff snapshot ctx cfg now =
            ([], some ⟨cfg.rule_id, EvaluationErrorCode.INVALID_SCHEMA,
              "Rule " ++ rid ++ " invalid schema: " ++ msg,
              snapshot.snapshot_id, now⟩, 1))
        ∧ (rule.evaluate snapshot cfg.params = .error (RuleErr.exc ty msg) →
          evalConfig registry ff snapshot ctx cfg now =
            ([], some ⟨cfg.rule_id, EvaluationErrorCode.RULE_EXCEPTION,
              ty ++ ": " ++ msg, snapshot.snapshot_id, now⟩, 1)))
    ∧ (engine.evaluate snapshot clock d).stats.rules_evaluated =
        (engine.repository snapshot.resource_type snapshot.account_id).length := by
  refine ⟨fun hmiss => ?_, fun hget hsupp => ?_, ?_⟩
  · unfold evalConfig RuleRegistry.get
    rw [hmiss]
    rfl
  · refine ⟨fun he => ?_, fun he => ?_, fun he => ?_⟩ <;>
      (unfold evalConfig; rw [hget]; simp [hsupp, he, RuleErr.pyStr])
  · rw [evaluate_main]

/-- Witness for C6: the four accounting outcomes realized on concrete
rules: unknown "NOPE", skipping "SKIP", schema-invalid "BAD" and raising
"BOOM". -/
theorem stats_error_accounting_witness :
    evalConfig failRegistry {} sampleSnapshot sampleCtx { rule_id := "NOPE" } 3 =
      ([], some ⟨"NOPE", EvaluationErrorCode.UNKNOWN_RULE,
        "Unknown rule_id: NOPE", "snap-1", 3⟩, 1)
    ∧ evalConfig failRegistry {} sampleSnapshot sampleCtx { rule_id := "SKIP" } 3 =
      ([], some ⟨"SKIP", EvaluationErrorCode.SKIPPED_MISSING_DATA,
        "Rule SKIP skipped: missing required data: [\x27metadata.acl_grants\x27]",
        "snap-1", 3⟩, 0)
    ∧ evalConfig failRegistry {} sampleSnapshot sampleCtx { rule_id := "BAD" } 3 =
      ([], some ⟨"BAD", EvaluationErrorCode.INVALID_SCHEMA,
        "Rule BAD invalid schema: Expected object at metadata.acl_grants",
        "snap-1", 3⟩, 1)
    ∧ evalConfig failRegistry {} sampleSnapshot sampleCtx { rule_id := "BOOM" } 3 =
      ([], some ⟨"BOOM", EvaluationErrorCode.RULE_EXCEPTION,
        "ValueError: boom", "snap-1", 3⟩, 1)
    ∧ (unknownRuleEngine.evaluate sampleSnapshot (fun _ => 0) 5).stats.rules_evaluated = 1 :=
  ⟨(stats_error_accounting failRegistry {} sampleSnapshot sampleCtx
      { rule_id := "NOPE" } 3 boomRule "" "" "" [] unknownRuleEngine (fun _ => 0) 5).1 rfl,
   ((stats_error_accounting failRegistry {} sampleSnapshot sampleCtx
      { rule_id := "SKIP" } 3 skipRule "SKIP" "" "" ["metadata.acl_grants"]
      unknownRuleEngine (fun _ => 0) 5).2.1 rfl rfl).1 rfl,
   ((stats_error_accounting failRegistry {} sampleSnapshot sampleCtx
      { rule_id := "BAD" } 3 badSchemaRule "BAD"
      "Expected object at metadata.acl_grants" "" []
      unknownRuleEngine (fun _ => 0) 5).2.1 rfl rfl).2.1 rfl,
   ((stats_error_accounting failRegistry {} sampleSnapshot sampleCtx
      { rule_id := "BOOM" } 3 boomRule "" "boom" "ValueError" []
      unknownRuleEngine (fun _ => 0) 5).2.1 rfl rfl).2.2 rfl,
   (stats_error_accounting failRegistry {} sampleSnapshot sampleCtx
      { rule_id := "NOPE" } 3 boomRule "" "" "" [] unknownRuleEngine
      (fun _ => 0) 5).2.2⟩

end SkyWatch

namespace SkyWatch

/-- C7: for a config whose rule evaluates successfully, every assembled
finding has status SUPPRESSED exactly when the config's suppressed flag is
set and OPEN otherwise; the suppressed rule still runs — it yields no
error, produces one finding per returned spec, and toggling the
suppressed flag changes nothing in the findings except their status. -/
theorem suppression_only_changes_status (registry : RuleRegistry)
    (ff : FindingFactory) (snapshot : ResourceSnapshot)
    (ctx : EvaluationContext) (cfg : RuleConfig) (rule : PolicyRule)
    (specs : List FindingSpec) (now : DTime)
    (hget : registry.get cfg.rule_id = .ok rule)
    (hsupp : rule.supports snapshot.resource_type = true)
    (hok : rule.evaluate snapshot cfg.params = .ok specs) :
    ((evalConfig registry ff snapshot ctx cfg now).1.map (fun f => f.status) =
      specs.map (fun _ =>
        if cfg.suppressed then FindingStatus.SUPPRESSED else FindingStatus.OPEN))
    ∧ (evalConfig registry ff snapshot ctx cfg now).2.1 = Option.none
    ∧ (evalConfig registry ff snapshot ctx cfg now).1.length = specs.length
    ∧ ((evalConfig registry ff snapshot ctx { cfg with suppressed := true }
          now).1.map Finding.sansStatus =
       (evalConfig registry ff snapshot ctx { cfg with suppressed := false }
          now).1.map Finding.sansStatus) := by
  have hbody : ∀ b : Bool, evalConfig registry ff snapshot ctx
      { cfg with suppressed := b } now =
      (specs.map (fun spec =>
        ff.create snapshot ctx rule.rule_id rule.rule_version
          (_resolve_severity rule { cfg with suppressed := b } spec.severity)
          (if b then FindingStatus.SUPPRESSED else FindingStatus.OPEN) spec),
       Option.none, 0) := by
    intro b
    unfold evalConfig
    rw [show ({ cfg with suppressed := b } : RuleConfig).rule_id = cfg.rule_id from rfl,
        hget]
    simp [hsupp, hok]
  have hcfg : cfg = { cfg with suppressed := cfg.suppressed } := rfl
  refine ⟨?_, ?_, ?_, ?_⟩
  · rw [hcfg, hbody cfg.suppressed]
    simp only [List.map_map]
    exact List.map_congr_left (fun a _ => rfl)
  · rw [hcfg, hbody cfg.suppressed]
  · rw [hcfg, hbody cfg.suppressed]
    simp
  · rw [hbody true, hbody false]
    simp only [List.map_map]
    exact List.map_congr_left (fun a _ => rfl)

/-- Witness for C7: the suppressed encryption config still produces its
finding, with status SUPPRESSED, and stripping status equates it with the
unsuppressed run. -/
theorem suppression_only_changes_status_witness :
    ((evalConfig sampleRegistry {} sampleSnapshot sampleCtx
        { rule_id := "S3_ENCRYPTION_DISABLED", suppressed := true } 0).1.map
        (fun f => f.status) = [FindingStatus.SUPPRESSED])
    ∧ (evalConfig sampleRegistry {} sampleSnapshot sampleCtx
        { rule_id := "S3_ENCRYPTION_DISABLED", suppressed := true } 0).1.length = 1
    ∧ ((evalConfig sampleRegistry {} sampleSnapshot sampleCtx
        { rule_id := "S3_ENCRYPTION_DISABLED", suppressed := true } 0).1.map
        Finding.sansStatus =
       (evalConfig sampleRegistry {} sampleSnapshot sampleCtx
        { rule_id := "S3_ENCRYPTION_DISABLED", suppressed := false } 0).1.map
        Finding.sansStatus) :=
  ⟨(suppression_only_changes_status sampleRegistry {} sampleSnapshot sampleCtx
      { rule_id := "S3_ENCRYPTION_DISABLED", suppressed := true }
      EncryptionEnabledRule
      (match EncryptionEnabledRule.evaluate sampleSnapshot Option.none with
       | .ok s => s | .error _ => []) 0 rfl rfl rfl).1,
   (suppression_only_changes_status sampleRegistry {} sampleSnapshot sampleCtx
      { rule_id := "S3_ENCRYPTION_DISABLED", suppressed := true }
      EncryptionEnabledRule
      (match EncryptionEnabledRule.evaluate sampleSnapshot Option.none with
       | .ok s => s | .error _ => []) 0 rfl rfl rfl).2.2.1,
   (suppression_only_changes_status sampleRegistry {} sampleSnapshot sampleCtx
      { rule_id := "S3_ENCRYPTION_DISABLED", suppressed := true }
      EncryptionEnabledRule
      (match EncryptionEnabledRule.evaluate sampleSnapshot Option.none with
       | .ok s => s | .error _ => []) 0 rfl rfl rfl).2.2.2⟩

end SkyWatch

namespace SkyWatch

/-- C9 counterexample: a config whose rule id is literally the reserved
sentinel "__validation__" and is not registered: rules_failed is 1, but
the count of failure-coded errors whose rule id is NOT the sentinel is 0,
so the claimed equality fails at this input. -/
theorem rules_failed_sentinel_count_mismatch :
    (sentinelEngine.evaluate sampleSnapshot (fun _ => 0) 5).stats.rules_failed = 1
    ∧ ((sentinelEngine.evaluate sampleSnapshot (fun _ => 0) 5).errors.filter
        (fun e => isFailureCode e.error_code &&
          !(e.rule_id == "__validation__"))).length = 0 := by
  exact ⟨rfl, by decide⟩

/-- C9 amended: in every result, rules_failed equals the number of errors
whose code is UNKNOWN_RULE, INVALID_SCHEMA or RULE_EXCEPTION — with no
rule-id exclusion, since the validation short-circuit is unreachable;
rules_failed never exceeds rules_evaluated; and rules_evaluated equals the
number of configs returned by the repository. -/
theorem result_coherence (engine : PolicyEngine) (snapshot : ResourceSnapshot)
    (clock : Nat → DTime) (d : Nat) :
    (engine.evaluate snapshot clock d).stats.rules_failed =
      ((engine.evaluate snapshot clock d).errors.filter
        (fun e => isFailureCode e.error_code)).length
    ∧ (engine.evaluate snapshot clock d).stats.rules_failed ≤
      (engine.evaluate snapshot clock d).stats.rules_evaluated
    ∧ (engine.evaluate snapshot clock d).stats.rules_evaluated =
      (engine.repository snapshot.resource_type snapshot.account_id).length := by
  rw [evaluate_main]
  have h := evalLoop_counts engine.registry engine.finding_factory snapshot
    (buildCtx snapshot clock).1 clock
    (engine.repository snapshot.resource_type snapshot.account_id)
    (buildCtx snapshot clock).2
  exact ⟨h.1, h.2, rfl⟩

end SkyWatch
